import Mathlib

/- A shallow embedding of the Civic-Samadhan backend controllers:
report.controller.js (submitReport, getMyReports, getAllReports, updateReportStatus),
the notification controller (getMyNotifications, markNotificationAsRead), and the
scheduled notification-dispatch callback registered at startup.
Request bodies are JavaScript values tested by truthiness; the document store is a
record of lists of documents; fallible operations return Except. -/

namespace CivicSamadhan

/-- JavaScript-style request values: body fields arrive as arbitrary JS values and
the controllers test their presence by truthiness. -/
inductive JsVal where
  | vUndefined
  | vNull
  | vBool (b : Bool)
  | vNum (n : Int)
  | vStr (s : String)
deriving DecidableEq, Repr

/-- JavaScript truthiness of a value: undefined, null, false, 0 and the empty
string are falsy. -/
def truthy : JsVal → Bool
  | .vUndefined => false
  | .vNull => false
  | .vBool b => b
  | .vNum n => n != 0
  | .vStr s => s != ""

/-- JavaScript template-literal rendering of a value. -/
def JsVal.render : JsVal → String
  | .vUndefined => "undefined"
  | .vNull => "null"
  | .vBool b => if b then "true" else "false"
  | .vNum n => toString n
  | .vStr s => s

/-- Category document: categoryId, name, description. -/
structure Category where
  categoryId : String
  name : String
  description : String
deriving DecidableEq, Repr

/-- User document: userId, username, name, email. -/
structure User where
  userId : String
  username : String
  name : String
  email : String
deriving DecidableEq, Repr

/-- Report document, with the fields written by submitReport. Fields copied from
the request body keep their raw JS values. -/
structure Report where
  reportId : String
  userId : String
  categoryId : JsVal
  title : JsVal
  description : JsVal
  photo_url : String
  voice_recording_url : Option String
  location_lat : JsVal
  location_lng : JsVal
  status : JsVal
  createdAt : Nat
deriving DecidableEq, Repr

/-- ReportHistory document: the append-only audit entry written on submission. -/
structure ReportHistory where
  reportId : String
  previousStatus : Option JsVal
  newStatus : String
  changedByUserId : String
  remarks : String
deriving DecidableEq, Repr

/-- Notification document. The read state lives in the status field; the schema
default for a fresh notification is unread (modelled from the spec, the schema file
is not among the shown sources). -/
structure Notification where
  notificationId : String
  userId : String
  message : String
  type : String
  reportId : Option String
  status : String
  createdAt : Nat
deriving DecidableEq, Repr

/-- The document store: one list per collection, plus a counter of analytics
recomputations standing in for the external analytics view. -/
structure Store where
  reports : List Report
  histories : List ReportHistory
  notifications : List Notification
  categories : List Category
  users : List User
  analyticsRuns : Nat
deriving DecidableEq, Repr

/-- External collaborators of one request: the Cloudinary upload (secure URL or
failure), the application-generated fresh UUIDs and timestamp, and whether a
Notification.create write succeeds (it is awaited with no try/catch around it). -/
structure Env where
  upload : String → Option String
  freshReportId : String
  freshNotificationId : String
  now : Nat
  notifCreateOk : Bool

/-- Handler-level failures: a thrown ApiError (statusCode, message) or an
unexpected upstream rejection surfaced through asyncHandler. -/
inductive Err where
  | apiError (statusCode : Nat) (message : String)
  | dbError (message : String)
deriving DecidableEq, Repr

/-- The ApiResponse envelope sent by every handler. -/
structure ApiResponse (α : Type) where
  statusCode : Nat
  data : α
  message : String
deriving DecidableEq, Repr

/-- Persist a mutated document: replace the first list entry satisfying the
predicate (a Mongoose save addresses exactly the fetched document). -/
def updateFirst (p : α → Bool) (f : α → α) : List α → List α
  | [] => []
  | x :: xs => if p x then f x :: xs else x :: updateFirst p f xs

/-- Lookup in a JavaScript Map built from key-value pairs: with duplicate keys the
last insertion wins, and get answers none when the key is absent. -/
def jsMapGet (pairs : List (String × β)) (k : String) : Option β :=
  (pairs.reverse.find? (fun p => p.1 == k)).map (fun p => p.2)

/-- A query result ordered newest-first, as sort on createdAt descending. -/
def sortNewestFirst (key : α → Nat) (l : List α) : List α :=
  l.insertionSort (fun a b => key b ≤ key a)

/-- Modelled from the spec: generateAnalytics (analytics.service.js, not among the
shown sources) synchronously recomputes an aggregate view of report data; its only
visible effect here is one more recomputation. -/
def generateAnalytics (st : Store) : Store :=
  { st with analyticsRuns := st.analyticsRuns + 1 }

/-- The request seen by submitReport: the multipart body fields, the caller's id
from the auth middleware, and the local paths of the uploaded files. -/
structure SubmitReq where
  title : JsVal
  description : JsVal
  categoryId : JsVal
  locationLat : JsVal
  locationLng : JsVal
  userId : String
  photo : Option String
  voiceRecording : Option String

/-- The optional voice-recording upload step of submitReport. -/
def uploadVoice (env : Env) : Option String → Except Err (Option String)
  | none => Except.ok none
  | some p =>
    match env.upload p with
    | none => Except.error (Err.apiError 500 "Failed to upload voice recording to cloud service.")
    | some u => Except.ok (some u)

/-- submitReport: validates the required body fields by truthiness, resolves the
category, requires a photo, uploads the attachments, creates the Report (the schema
default status pending is modelled from the spec) and its initial ReportHistory
entry, triggers analytics, and answers 201 with the created report. -/
def submitReport (env : Env) (st : Store) (req : SubmitReq) :
    Except Err (ApiResponse Report × Store) :=
  if !truthy req.title || !truthy req.description || !truthy req.categoryId
      || !truthy req.locationLat || !truthy req.locationLng then
    Except.error (Err.apiError 400 "All required fields (title, description, categoryId, locationLat, locationLng) are needed for the report.")
  else
    match st.categories.find? (fun c => req.categoryId == JsVal.vStr c.categoryId) with
    | none => Except.error (Err.apiError 404 "The specified categoryId does not exist.")
    | some _ =>
      match req.photo with
      | none => Except.error (Err.apiError 400 "A photo is required for the report.")
      | some photoLocalPath =>
        match env.upload photoLocalPath with
        | none => Except.error (Err.apiError 500 "Failed to upload photo to cloud service.")
        | some photoUrl =>
          match uploadVoice env req.voiceRecording with
          | Except.error e => Except.error e
          | Except.ok voiceRecordingUrl =>
            let newReport : Report :=
              { reportId := env.freshReportId
                userId := req.userId
                categoryId := req.categoryId
                title := req.title
                description := req.description
                photo_url := photoUrl
                voice_recording_url := voiceRecordingUrl
                location_lat := req.locationLat
                location_lng := req.locationLng
                status := JsVal.vStr "pending"
                createdAt := env.now }
            let hist : ReportHistory :=
              { reportId := newReport.reportId
                previousStatus := none
                newStatus := "pending"
                changedByUserId := req.userId
                remarks := "Report submitted by user." }
            let st1 : Store := { st with reports := st.reports ++ [newReport] }
            let st2 : Store := { st1 with histories := st1.histories ++ [hist] }
            Except.ok
              ({ statusCode := 201, data := newReport, message := "Report submitted successfully." },
                generateAnalytics st2)

/-- A report's category reference after manual population: the resolved Category
object when the map lookup hit, otherwise the raw id value. -/
inductive CatField where
  | obj (c : Category)
  | raw (v : JsVal)
deriving DecidableEq, Repr

/-- A populated report as sent by getMyReports: the user reference is always the
full caller object from the request. -/
structure PopReportMine where
  reportId : String
  userId : User
  categoryId : CatField
  title : JsVal
  description : JsVal
  photo_url : String
  voice_recording_url : Option String
  location_lat : JsVal
  location_lng : JsVal
  status : JsVal
  createdAt : Nat
deriving DecidableEq, Repr

/-- The distinct truthy categoryId values of a report list (the Set of the
truthiness-filtered ids). -/
def truthyCatIds (reports : List Report) : List JsVal :=
  ((reports.map (fun r => r.categoryId)).filter truthy).dedup

/-- Map.get keyed by category UUID string, applied to a raw JS categoryId value:
only a string value can hit a key. -/
def catMapGet (pairs : List (String × Category)) : JsVal → Option Category
  | .vStr s => jsMapGet pairs s
  | _ => none

/-- getMyReports: the caller's reports newest-first; an empty result answers 200
with an empty list; otherwise categories are batch-fetched and substituted in
place, the user reference becoming the full request user. -/
def getMyReports (st : Store) (reqUser : User) : ApiResponse (List PopReportMine) :=
  let myReports := sortNewestFirst (fun r => r.createdAt)
    (st.reports.filter (fun r => r.userId == reqUser.userId))
  if myReports.isEmpty then
    { statusCode := 200, data := [], message := "User has not created any reports yet." }
  else
    let categoryUUIDs := truthyCatIds myReports
    let categories := st.categories.filter
      (fun c => categoryUUIDs.contains (JsVal.vStr c.categoryId))
    let categoryMap := categories.map (fun c => (c.categoryId, c))
    let populatedReports := myReports.map (fun r =>
      ({ reportId := r.reportId
         userId := reqUser
         categoryId := match catMapGet categoryMap r.categoryId with
           | some c => CatField.obj c
           | none => CatField.raw r.categoryId
         title := r.title
         description := r.description
         photo_url := r.photo_url
         voice_recording_url := r.voice_recording_url
         location_lat := r.location_lat
         location_lng := r.location_lng
         status := r.status
         createdAt := r.createdAt } : PopReportMine))
    { statusCode := 200, data := populatedReports, message := "User reports fetched successfully." }

/-- The projection of a user selected by the admin listing: username, name,
userId. -/
structure UserProj where
  username : String
  name : String
  userId : String
deriving DecidableEq, Repr

/-- A report's user reference after manual population in the admin listing. -/
inductive UserField where
  | obj (u : UserProj)
  | raw (id : String)
deriving DecidableEq, Repr

/-- A populated report as sent by getAllReports. -/
structure PopReportAll where
  reportId : String
  userId : UserField
  categoryId : CatField
  title : JsVal
  description : JsVal
  photo_url : String
  voice_recording_url : Option String
  location_lat : JsVal
  location_lng : JsVal
  status : JsVal
  createdAt : Nat
deriving DecidableEq, Repr

/-- The distinct truthy userId strings of a report list. -/
def truthyUserIds (reports : List Report) : List String :=
  ((reports.map (fun r => r.userId)).filter (fun s => s != "")).dedup

/-- getAllReports (admin): every report newest-first; zero reports is thrown as a
404 ApiError; otherwise users and categories are batch-fetched and substituted in
place of the raw reference fields. -/
def getAllReports (st : Store) : Except Err (ApiResponse (List PopReportAll)) :=
  let reports := sortNewestFirst (fun r => r.createdAt) st.reports
  if reports.isEmpty then
    Except.error (Err.apiError 404 "No reports found.")
  else
    let userUUIDs := truthyUserIds reports
    let categoryUUIDs := truthyCatIds reports
    let users := (st.users.filter (fun u => userUUIDs.contains u.userId)).map
      (fun u => ({ username := u.username, name := u.name, userId := u.userId } : UserProj))
    let categories := st.categories.filter
      (fun c => categoryUUIDs.contains (JsVal.vStr c.categoryId))
    let userMap := users.map (fun u => (u.userId, u))
    let categoryMap := categories.map (fun c => (c.categoryId, c))
    let populatedReports := reports.map (fun r =>
      ({ reportId := r.reportId
         userId := match jsMapGet userMap r.userId with
           | some u => UserField.obj u
           | none => UserField.raw r.userId
         categoryId := match catMapGet categoryMap r.categoryId with
           | some c => CatField.obj c
           | none => CatField.raw r.categoryId
         title := r.title
         description := r.description
         photo_url := r.photo_url
         voice_recording_url := r.voice_recording_url
         location_lat := r.location_lat
         location_lng := r.location_lng
         status := r.status
         createdAt := r.createdAt } : PopReportAll))
    Except.ok { statusCode := 200, data := populatedReports, message := "All reports fetched successfully." }

/-- The in-place mutation of the fetched report: status is overwritten, while the
description is overwritten only when the supplied value is truthy (description or
report.description). -/
def updatedReport (report : Report) (status description : JsVal) : Report :=
  { report with
    status := status
    description := if truthy description then description else report.description }

/-- The notification document created for the owning user on a status change. -/
def statusNotification (env : Env) (user : User) (updated : Report)
    (status : JsVal) : Notification :=
  { notificationId := env.freshNotificationId
    userId := user.userId
    message := "Your report #" ++ updated.reportId ++ " status changed to \"" ++ status.render ++ "\"."
    type := "status_update"
    reportId := some updated.reportId
    status := "unread"
    createdAt := env.now }

/-- The 200 envelope sent after a status update. -/
def statusUpdateResponse (updated : Report) : ApiResponse Report :=
  { statusCode := 200, data := updated,
    message := "Report status updated successfully and notification sent." }

/-- The tail of updateReportStatus once the report has been fetched: mutate and
save the report, look the owning user up, await Notification.create with no
try/catch (a rejected create propagates), trigger analytics, answer 200. -/
def updateStatusRest (env : Env) (st : Store) (reportId : String)
    (status description : JsVal) (report : Report) :
    Except Err (ApiResponse Report × Store) :=
  let updated := updatedReport report status description
  let st1 : Store := { st with
    reports := updateFirst (fun r => r.reportId == reportId) (fun _ => updated) st.reports }
  match st.users.find? (fun u => u.userId == report.userId) with
  | some user =>
    if env.notifCreateOk then
      Except.ok (statusUpdateResponse updated, generateAnalytics
        { st1 with notifications := st1.notifications ++ [statusNotification env user updated status] })
    else
      Except.error (Err.dbError "Notification.create failed")
  | none =>
    Except.ok (statusUpdateResponse updated, generateAnalytics st1)

/-- updateReportStatus: requires a truthy status, finds the report by id (404 if
absent), then mutates, saves, notifies and answers as updateStatusRest. -/
def updateReportStatus (env : Env) (st : Store) (reportId : String)
    (status description : JsVal) : Except Err (ApiResponse Report × Store) :=
  if !truthy status then
    Except.error (Err.apiError 400 "Status is required.")
  else
    match st.reports.find? (fun r => r.reportId == reportId) with
    | none => Except.error (Err.apiError 404 "Report not found.")
    | some report => updateStatusRest env st reportId status description report

/-- The reduced projection of a report fetched for notification population:
reportId, title, status. -/
structure ReportProj where
  reportId : String
  title : JsVal
  status : JsVal
deriving DecidableEq, Repr

/-- A notification's report reference after manual population. -/
inductive ReportField where
  | obj (r : ReportProj)
  | raw (id : Option String)
deriving DecidableEq, Repr

/-- A populated notification as sent by getMyNotifications. -/
structure PopNotification where
  notificationId : String
  userId : String
  message : String
  type : String
  reportId : ReportField
  status : String
  createdAt : Nat
deriving DecidableEq, Repr

/-- The distinct truthy reportId values referenced by a notification list. -/
def truthyReportIds (notifs : List Notification) : List String :=
  ((notifs.filterMap (fun n => n.reportId)).filter (fun s => s != "")).dedup

/-- Manual population of one notification against the fetched report projections:
a map hit substitutes the projection, a miss keeps the raw id in place. -/
def popNotif (pairs : List (String × ReportProj)) (n : Notification) : PopNotification :=
  { notificationId := n.notificationId
    userId := n.userId
    message := n.message
    type := n.type
    status := n.status
    createdAt := n.createdAt
    reportId := match n.reportId with
      | some s =>
        match jsMapGet pairs s with
        | some r => ReportField.obj r
        | none => ReportField.raw (some s)
      | none => ReportField.raw none }

/-- getMyNotifications: the caller's notifications newest-first; an empty result
answers 200 with an empty list; otherwise the referenced reports are batch-fetched
as reduced projections and substituted in place of the raw report ids. -/
def getMyNotifications (st : Store) (userId : String) : ApiResponse (List PopNotification) :=
  let notifications := sortNewestFirst (fun n => n.createdAt)
    (st.notifications.filter (fun n => n.userId == userId))
  if notifications.isEmpty then
    { statusCode := 200, data := [], message := "No notifications found for this user." }
  else
    let reportUUIDs := truthyReportIds notifications
    let relatedReports := (st.reports.filter (fun r => reportUUIDs.contains r.reportId)).map
      (fun r => ({ reportId := r.reportId, title := r.title, status := r.status } : ReportProj))
    let reportMap := relatedReports.map (fun r => (r.reportId, r))
    { statusCode := 200
      data := notifications.map (popNotif reportMap)
      message := "Notifications fetched successfully." }

/-- Notification.findOneAndUpdate on notificationId and userId together, setting
status to read and returning the updated document (new true) beside the updated
collection; none when no document matches both. -/
def findOneAndUpdateRead : List Notification → String → String →
    Option (Notification × List Notification)
  | [], _, _ => none
  | n :: ns, notificationId, userId =>
    if n.notificationId == notificationId && n.userId == userId then
      let upd := { n with status := "read" }
      some (upd, upd :: ns)
    else
      match findOneAndUpdateRead ns notificationId userId with
      | none => none
      | some (upd, ns2) => some (upd, n :: ns2)

/-- markNotificationAsRead: the ownership check is folded into the lookup; a miss
is a 404, a hit answers 200 with the updated notification. -/
def markNotificationAsRead (st : Store) (userId notificationId : String) :
    Except Err (ApiResponse Notification × Store) :=
  match findOneAndUpdateRead st.notifications notificationId userId with
  | none => Except.error (Err.apiError 404 "Notification not found or user not authorized.")
  | some (notification, notifications2) =>
    Except.ok
      ({ statusCode := 200, data := notification, message := "Notification marked as read." },
        { st with notifications := notifications2 })

/-- What one scheduled run logs: whether the completion message was reached and
which error, if any, was caught and logged. -/
structure CronRunResult where
  taskCompleted : Bool
  loggedError : Option String
deriving DecidableEq, Repr

/-- One invocation of the cron callback: it awaits sendPendingReportNotifications
(an external collaborator whose outcome is the argument), logs completion on
success, and catches and logs any error instead of rethrowing it. -/
def scheduledNotificationTask (outcome : Except String Unit) : Except String CronRunResult :=
  match outcome with
  | Except.ok _ => Except.ok { taskCompleted := true, loggedError := none }
  | Except.error e => Except.ok { taskCompleted := false, loggedError := some e }

/-- The recurring schedule: each run invokes the callback in order; an error that
escaped the callback would halt every subsequent run. -/
def scheduleRuns : List (Except String Unit) → List CronRunResult
  | [] => []
  | o :: rest =>
    match scheduledNotificationTask o with
    | Except.ok r => r :: scheduleRuns rest
    | Except.error _ => []

/-- Concrete category fixture. -/
def cat1 : Category :=
  { categoryId := "c-1", name := "Roads", description := "Road issues" }

/-- Concrete user fixture owning the sample report. -/
def user1 : User :=
  { userId := "u-1", username := "asha", name := "Asha", email := "asha@example.com" }

/-- Concrete report fixture. -/
def report1 : Report :=
  { reportId := "r-1", userId := "u-1", categoryId := JsVal.vStr "c-1",
    title := JsVal.vStr "Pothole", description := JsVal.vStr "Large pothole",
    photo_url := "https://cdn/photo.jpg", voice_recording_url := none,
    location_lat := JsVal.vNum 12, location_lng := JsVal.vNum 77,
    status := JsVal.vStr "pending", createdAt := 5 }

/-- Concrete notification fixture referencing an existing report. -/
def notif1 : Notification :=
  { notificationId := "n-1", userId := "u-1", message := "status changed",
    type := "status_update", reportId := some "r-1", status := "unread", createdAt := 3 }

/-- Concrete notification fixture referencing an absent report. -/
def notif2 : Notification :=
  { notificationId := "n-2", userId := "u-1", message := "dangling reference",
    type := "status_update", reportId := some "r-404", status := "unread", createdAt := 7 }

/-- The empty store. -/
def emptyStore : Store :=
  { reports := [], histories := [], notifications := [], categories := [],
    users := [], analyticsRuns := 0 }

/-- A store holding one report, its owner and its category. -/
def storeOne : Store :=
  { emptyStore with reports := [report1], users := [user1], categories := [cat1] }

/-- A store holding two notifications of the sample user, one resolvable report
reference and one dangling. -/
def storeNotifs : Store :=
  { emptyStore with
    reports := [report1]
    users := [user1]
    notifications := [notif1, notif2] }

/-- An environment whose uploads and notification writes all succeed. -/
def envOk : Env :=
  { upload := fun p => some ("https://cdn/" ++ p), freshReportId := "r-9",
    freshNotificationId := "n-9", now := 10, notifCreateOk := true }

/-- The same environment except that the Notification.create write rejects. -/
def envNotifFail : Env := { envOk with notifCreateOk := false }

/-- A fully valid submission request for the sample user and category. -/
def submitReq1 : SubmitReq :=
  { title := JsVal.vStr "Pothole", description := JsVal.vStr "Large pothole",
    categoryId := JsVal.vStr "c-1", locationLat := JsVal.vNum 12,
    locationLng := JsVal.vNum 77, userId := "u-1", photo := some "photo.jpg",
    voiceRecording := none }

/-- The same submission with latitude zero: a geometrically valid coordinate that
is falsy in JavaScript. -/
def submitReqLatZero : SubmitReq := { submitReq1 with locationLat := JsVal.vNum 0 }

/-- The insertion sort behind sortNewestFirst yields a list pairwise descending on
the key. -/
theorem pairwise_sortNewestFirst (key : α → Nat) (l : List α) :
    (sortNewestFirst key l).Pairwise (fun a b => key b ≤ key a) := by
  haveI : IsTotal α (fun a b => key b ≤ key a) := ⟨fun a b => Nat.le_total (key b) (key a)⟩
  haveI : IsTrans α (fun a b => key b ≤ key a) := ⟨fun a b c hab hbc => Nat.le_trans hbc hab⟩
  exact List.sorted_insertionSort _ l

/-- Sorting a query result preserves membership. -/
theorem mem_sortNewestFirst (key : α → Nat) (l : List α) (a : α) :
    a ∈ sortNewestFirst key l ↔ a ∈ l :=
  List.mem_insertionSort _

/-- C8: every error raised during one run of the scheduled pending-notification
dispatch is caught and logged inside the callback and never propagates, so a
failed run does not prevent subsequent scheduled runs: the schedule, which would
halt at the first escaped error, executes every run and logs each failure. -/
theorem scheduled_task_failures_never_halt_schedule (outcomes : List (Except String Unit)) :
    scheduleRuns outcomes = outcomes.map (fun o =>
      match o with
      | Except.ok _ => { taskCompleted := true, loggedError := none }
      | Except.error e => { taskCompleted := false, loggedError := some e })
    ∧ (scheduleRuns outcomes).length = outcomes.length := by
  have h : scheduleRuns outcomes = outcomes.map (fun o =>
      match o with
      | Except.ok _ => ({ taskCompleted := true, loggedError := none } : CronRunResult)
      | Except.error e => { taskCompleted := false, loggedError := some e }) := by
    induction outcomes with
    | nil => rfl
    | cons o rest ih => cases o <;> simp [scheduleRuns, scheduledNotificationTask, ih]
  exact ⟨h, by rw [h, List.length_map]⟩

/-- C9: a submission in which any required body field is falsy (0, the empty
string, null or undefined) is rejected with the 400 validation error before
anything is written: presence is tested by truthiness, not definedness. -/
theorem submitReport_rejects_falsy_required_fields (env : Env) (st : Store) (req : SubmitReq)
    (h : truthy req.title = false ∨ truthy req.description = false ∨
      truthy req.categoryId = false ∨ truthy req.locationLat = false ∨
      truthy req.locationLng = false) :
    submitReport env st req = Except.error (Err.apiError 400
      "All required fields (title, description, categoryId, locationLat, locationLng) are needed for the report.") := by
  unfold submitReport
  rcases h with h | h | h | h | h <;> simp [h]

/-- Witness for C9: latitude 0 is falsy, and the otherwise valid sample submission
with latitude 0 is rejected with the 400 validation error. -/
theorem submitReport_rejects_falsy_required_fields_witness :
    truthy submitReqLatZero.locationLat = false ∧
    submitReport envOk storeOne submitReqLatZero = Except.error (Err.apiError 400
      "All required fields (title, description, categoryId, locationLat, locationLng) are needed for the report.") :=
  ⟨by decide, submitReport_rejects_falsy_required_fields envOk storeOne submitReqLatZero
    (Or.inr (Or.inr (Or.inr (Or.inl (by decide)))))⟩

/-- C3: listing the caller's own reports when the caller owns zero reports answers
200 with an empty list, while the admin all-reports listing over an empty store
throws the 404 not-found error. -/
theorem empty_listing_asymmetry (st : Store) (u : User) :
    (st.reports.filter (fun r => r.userId == u.userId) = [] →
      getMyReports st u =
        { statusCode := 200, data := [], message := "User has not created any reports yet." })
    ∧ (st.reports = [] →
      getAllReports st = Except.error (Err.apiError 404 "No reports found.")) := by
  constructor
  · intro h
    unfold getMyReports
    simp [h, sortNewestFirst]
  · intro h
    unfold getAllReports
    simp [h, sortNewestFirst]

/-- Witness for C3: over the empty store the caller's listing answers 200 with an
empty list and the admin listing throws 404. -/
theorem empty_listing_asymmetry_witness :
    emptyStore.reports.filter (fun r => r.userId == user1.userId) = [] ∧
    emptyStore.reports = [] ∧
    getMyReports emptyStore user1 =
      { statusCode := 200, data := [], message := "User has not created any reports yet." } ∧
    getAllReports emptyStore = Except.error (Err.apiError 404 "No reports found.") :=
  ⟨by decide, by decide, (empty_listing_asymmetry emptyStore user1).1 (by decide),
    (empty_listing_asymmetry emptyStore user1).2 (by decide)⟩

/-- Counterexample to C1 as stated: a successful status update on an existing
report (it answers 200) leaves the ReportHistory collection exactly as it was, so
no ReportHistory entry recording the transition is created. -/
theorem updateReportStatus_writes_no_history_at_concrete_input :
    (updateReportStatus envOk storeOne "r-1" (JsVal.vStr "resolved") JsVal.vUndefined).toOption.map
        (fun p => (p.1.statusCode, p.2.histories))
      = some (200, storeOne.histories) := by
  rfl

/-- C1 amended: a status update never creates a ReportHistory entry; whenever the
update succeeds the history collection afterward equals the one before (the
initial submission is the only writer of ReportHistory). -/
theorem updateReportStatus_preserves_histories (env : Env) (st : Store) (rid : String)
    (status description : JsVal) :
    match updateReportStatus env st rid status description with
    | Except.ok (_, st2) => st2.histories = st.histories
    | Except.error _ => True := by
  have hrest : ∀ report, (match updateStatusRest env st rid status description report with
      | Except.ok (_, st2) => st2.histories = st.histories
      | Except.error _ => True) := by
    intro report
    simp only [updateStatusRest]
    cases hu : st.users.find? (fun u => u.userId == report.userId) with
    | none => simp [generateAnalytics]
    | some user =>
      cases hok : env.notifCreateOk with
      | false => simp
      | true => simp [generateAnalytics]
  unfold updateReportStatus
  cases htr : truthy status with
  | false => simp
  | true =>
    simp only [Bool.not_true, Bool.false_eq_true, if_false]
    cases hfind : st.reports.find? (fun r => r.reportId == rid) with
    | none => simp
    | some report => exact hrest report

/-- Counterexample to C2 as stated: on a store whose report owner resolves, a
status update whose Notification.create write rejects propagates that rejection
out of the handler instead of answering 200 with the updated report. -/
theorem updateReportStatus_propagates_notification_failure :
    updateReportStatus envNotifFail storeOne "r-1" (JsVal.vStr "resolved") JsVal.vUndefined
      = Except.error (Err.dbError "Notification.create failed") := by
  rfl

/-- C2 amended: a status update on an existing report with a truthy status answers
200 with the updated report whenever the owner lookup misses or the notification
write succeeds; there is no try/catch isolating Notification.create, so only its
success (or skipping) yields the 200 response. -/
theorem updateReportStatus_ok_unless_notification_create_fails (env : Env) (st : Store)
    (rid : String) (status description : JsVal) (r : Report)
    (hstatus : truthy status = true)
    (hfind : st.reports.find? (fun x => x.reportId == rid) = some r)
    (hnotif : st.users.find? (fun u => u.userId == r.userId) = none ∨ env.notifCreateOk = true) :
    match updateReportStatus env st rid status description with
    | Except.ok (resp, _) => resp.statusCode = 200 ∧ resp.data.status = status ∧
        resp.data.reportId = r.reportId
    | Except.error _ => False := by
  unfold updateReportStatus
  rw [hstatus, hfind]
  simp only [Bool.not_true, Bool.false_eq_true, if_false]
  simp only [updateStatusRest]
  rcases hnotif with hnone | hok
  · rw [hnone]
    exact ⟨rfl, rfl, rfl⟩
  · rw [hok]
    cases hu : st.users.find? (fun u => u.userId == r.userId) with
    | none => exact ⟨rfl, rfl, rfl⟩
    | some user =>
      simp only [if_true]
      exact ⟨rfl, rfl, rfl⟩

/-- Witness for C2 amended: with the sample store and an environment whose
notification write succeeds, updating the sample report answers 200 with the
updated report. -/
theorem updateReportStatus_ok_unless_notification_create_fails_witness :
    truthy (JsVal.vStr "resolved") = true ∧
    storeOne.reports.find? (fun x => x.reportId == "r-1") = some report1 ∧
    envOk.notifCreateOk = true ∧
    (match updateReportStatus envOk storeOne "r-1" (JsVal.vStr "resolved") JsVal.vUndefined with
     | Except.ok (resp, _) => resp.statusCode = 200 ∧ resp.data.status = JsVal.vStr "resolved" ∧
         resp.data.reportId = report1.reportId
     | Except.error _ => False) :=
  ⟨by decide, by decide, by decide,
    updateReportStatus_ok_unless_notification_create_fails envOk storeOne "r-1"
      (JsVal.vStr "resolved") JsVal.vUndefined report1 (by decide) (by decide)
      (Or.inr (by decide))⟩

/-- C6: own-report listing, admin all-report listing and own-notification listing
are each returned newest-first by creation timestamp (pairwise descending on
createdAt, the admin listing whenever it succeeds). -/
theorem listings_sorted_newest_first (st : Store) (u : User) (uid : String) :
    ((getMyReports st u).data).Pairwise (fun a b => b.createdAt ≤ a.createdAt)
    ∧ ((getMyNotifications st uid).data).Pairwise (fun a b => b.createdAt ≤ a.createdAt)
    ∧ (match getAllReports st with
       | Except.ok resp => (resp.data).Pairwise (fun a b => b.createdAt ≤ a.createdAt)
       | Except.error _ => True) := by
  refine ⟨?_, ?_, ?_⟩
  · simp only [getMyReports]
    split
    · exact List.Pairwise.nil
    · exact List.pairwise_map.mpr (pairwise_sortNewestFirst _ _)
  · simp only [getMyNotifications]
    split
    · exact List.Pairwise.nil
    · exact List.pairwise_map.mpr (pairwise_sortNewestFirst _ _)
  · simp only [getAllReports]
    cases hemp : (sortNewestFirst (fun r => r.createdAt) st.reports).isEmpty with
    | true => simp
    | false =>
      simp only [Bool.false_eq_true, if_false]
      exact List.pairwise_map.mpr (pairwise_sortNewestFirst _ _)

/-- A save through updateFirst replaces exactly the document that find? located,
leaving every other entry in place. -/
theorem updateFirst_of_find? {p : α → Bool} {l : List α} {a : α} (f : α → α)
    (h : l.find? p = some a) :
    ∃ pre post, l = pre ++ a :: post ∧ updateFirst p f l = pre ++ f a :: post := by
  induction l with
  | nil => simp at h
  | cons x xs ih =>
    cases hx : p x with
    | true =>
      rw [List.find?_cons_of_pos _ hx] at h
      obtain rfl := Option.some.inj h
      exact ⟨[], xs, rfl, by simp [updateFirst, hx]⟩
    | false =>
      rw [List.find?_cons_of_neg _ (by simp [hx])] at h
      obtain ⟨pre, post, hl, hupd⟩ := ih h
      exact ⟨x :: pre, post, by rw [List.cons_append, ← hl],
        by simp [updateFirst, hx, hupd]⟩

/-- C10: a status update whose body carries a falsy description leaves the stored
description unchanged rather than clearing it; only a truthy description value
overwrites it. The save replaces exactly the fetched report with the returned
document. -/
theorem updateReportStatus_falsy_description_keeps_stored (env : Env) (st : Store)
    (rid : String) (status description : JsVal) (r : Report)
    (hfind : st.reports.find? (fun x => x.reportId == rid) = some r) :
    match updateReportStatus env st rid status description with
    | Except.ok (resp, st2) =>
        (truthy description = false → resp.data.description = r.description) ∧
        (truthy description = true → resp.data.description = description) ∧
        ∃ pre post, st.reports = pre ++ r :: post ∧ st2.reports = pre ++ resp.data :: post
    | Except.error _ => True := by
  unfold updateReportStatus
  cases htr : truthy status with
  | false => simp
  | true =>
    rw [hfind]
    simp only [Bool.not_true, Bool.false_eq_true, if_false]
    simp only [updateStatusRest]
    obtain ⟨pre, post, hl, hupd⟩ :=
      updateFirst_of_find? (fun _ => updatedReport r status description) hfind
    cases hu : st.users.find? (fun u => u.userId == r.userId) with
    | none =>
      refine ⟨?_, ?_, pre, post, hl, ?_⟩
      · intro hd
        simp [statusUpdateResponse, updatedReport, hd]
      · intro hd
        simp [statusUpdateResponse, updatedReport, hd]
      · simpa [generateAnalytics, statusUpdateResponse] using hupd
    | some user =>
      cases hok : env.notifCreateOk with
      | false => trivial
      | true =>
        simp only [if_true]
        refine ⟨?_, ?_, pre, post, hl, ?_⟩
        · intro hd
          simp [statusUpdateResponse, updatedReport, hd]
        · intro hd
          simp [statusUpdateResponse, updatedReport, hd]
        · simpa [generateAnalytics, statusUpdateResponse] using hupd

/-- Witness for C10: updating the sample report with an empty-string description
keeps the stored description, and the store holds the returned document. -/
theorem updateReportStatus_falsy_description_keeps_stored_witness :
    storeOne.reports.find? (fun x => x.reportId == "r-1") = some report1 ∧
    truthy (JsVal.vStr "") = false ∧
    (match updateReportStatus envOk storeOne "r-1" (JsVal.vStr "resolved") (JsVal.vStr "") with
     | Except.ok (resp, st2) =>
        (truthy (JsVal.vStr "") = false → resp.data.description = report1.description) ∧
        (truthy (JsVal.vStr "") = true → resp.data.description = JsVal.vStr "") ∧
        ∃ pre post, storeOne.reports = pre ++ report1 :: post ∧
          st2.reports = pre ++ resp.data :: post
     | Except.error _ => True) :=
  ⟨by decide, by decide,
    updateReportStatus_falsy_description_keeps_stored envOk storeOne "r-1"
      (JsVal.vStr "resolved") (JsVal.vStr "") report1 (by decide)⟩

/-- C4: every valid submission (all required fields truthy, category resolvable,
photo attached, uploads succeeding) creates exactly one Report and exactly one
ReportHistory record with previousStatus null and newStatus pending, and answers
201 with the created report. -/
theorem submitReport_valid_creates_report_and_history (env : Env) (st : Store)
    (req : SubmitReq) (c : Category) (p url : String) (vr : Option String)
    (ht : truthy req.title = true) (hd : truthy req.description = true)
    (hc : truthy req.categoryId = true) (hlat : truthy req.locationLat = true)
    (hlng : truthy req.locationLng = true)
    (hcat : st.categories.find? (fun x => req.categoryId == JsVal.vStr x.categoryId) = some c)
    (hphoto : req.photo = some p)
    (hup : env.upload p = some url)
    (hvoice : uploadVoice env req.voiceRecording = Except.ok vr) :
    match submitReport env st req with
    | Except.ok (resp, st2) =>
        resp.statusCode = 201 ∧
        resp.data.status = JsVal.vStr "pending" ∧
        st2.reports = st.reports ++ [resp.data] ∧
        st2.histories = st.histories ++
          [{ reportId := resp.data.reportId, previousStatus := none, newStatus := "pending",
             changedByUserId := req.userId, remarks := "Report submitted by user." }]
    | Except.error _ => False := by
  unfold submitReport
  rw [ht, hd, hc, hlat, hlng]
  simp only [Bool.not_true, Bool.or_self, Bool.false_eq_true, if_false]
  rw [hcat, hphoto]
  dsimp only
  rw [hup]
  dsimp only
  rw [hvoice]
  exact ⟨rfl, rfl, rfl, rfl⟩

/-- Witness for C4: submitting the fully valid sample request against the sample
store answers 201 and appends exactly one report and one pending history row. -/
theorem submitReport_valid_creates_report_and_history_witness :
    truthy submitReq1.title = true ∧
    storeOne.categories.find? (fun x => submitReq1.categoryId == JsVal.vStr x.categoryId)
      = some cat1 ∧
    submitReq1.photo = some "photo.jpg" ∧
    envOk.upload "photo.jpg" = some "https://cdn/photo.jpg" ∧
    uploadVoice envOk submitReq1.voiceRecording = Except.ok none ∧
    (match submitReport envOk storeOne submitReq1 with
     | Except.ok (resp, st2) =>
        resp.statusCode = 201 ∧
        resp.data.status = JsVal.vStr "pending" ∧
        st2.reports = storeOne.reports ++ [resp.data] ∧
        st2.histories = storeOne.histories ++
          [{ reportId := resp.data.reportId, previousStatus := none, newStatus := "pending",
             changedByUserId := submitReq1.userId, remarks := "Report submitted by user." }]
     | Except.error _ => False) :=
  ⟨by decide, by decide, rfl, rfl, rfl,
    submitReport_valid_creates_report_and_history envOk storeOne submitReq1 cat1 "photo.jpg"
      "https://cdn/photo.jpg" none (by decide) (by decide) (by decide) (by decide) (by decide)
      (by decide) rfl rfl rfl⟩

/-- When no notification matches both the id and the caller, findOneAndUpdateRead
answers none. -/
theorem findOneAndUpdateRead_eq_none (l : List Notification) (nid uid : String)
    (h : ∀ n ∈ l, ¬(n.notificationId = nid ∧ n.userId = uid)) :
    findOneAndUpdateRead l nid uid = none := by
  induction l with
  | nil => rfl
  | cons x xs ih =>
    have hx : ¬(x.notificationId = nid ∧ x.userId = uid) := h x (List.mem_cons_self x xs)
    have hcond : (x.notificationId == nid && x.userId == uid) = false := by
      rw [Bool.eq_false_iff]
      intro hcontra
      exact hx (by simpa [Bool.and_eq_true] using hcontra)
    have hrec := ih (fun n hn => h n (List.mem_cons_of_mem x hn))
    simp [findOneAndUpdateRead, hcond, hrec]

/-- When some notification matches both the id and the caller,
findOneAndUpdateRead updates exactly the first match, setting only its status to
read, and answers the updated document. -/
theorem findOneAndUpdateRead_of_mem (l : List Notification) (nid uid : String)
    (h : ∃ n ∈ l, n.notificationId = nid ∧ n.userId = uid) :
    ∃ pre n0 post, l = pre ++ n0 :: post ∧ n0.notificationId = nid ∧ n0.userId = uid ∧
      findOneAndUpdateRead l nid uid =
        some ({ n0 with status := "read" }, pre ++ { n0 with status := "read" } :: post) := by
  induction l with
  | nil => simp at h
  | cons x xs ih =>
    by_cases hx : x.notificationId = nid ∧ x.userId = uid
    · refine ⟨[], x, xs, rfl, hx.1, hx.2, ?_⟩
      have hcond : (x.notificationId == nid && x.userId == uid) = true := by
        simp [hx.1, hx.2]
      simp [findOneAndUpdateRead, hcond]
    · have h2 : ∃ n ∈ xs, n.notificationId = nid ∧ n.userId = uid := by
        rcases h with ⟨n, hn, hm⟩
        rcases List.mem_cons.mp hn with rfl | hn2
        · exact absurd hm hx
        · exact ⟨n, hn2, hm⟩
      obtain ⟨pre, n0, post, hl, h1, h2id, hrec⟩ := ih h2
      have hcond : (x.notificationId == nid && x.userId == uid) = false := by
        rw [Bool.eq_false_iff]
        intro hcontra
        exact hx (by simpa [Bool.and_eq_true] using hcontra)
      refine ⟨x :: pre, n0, post, by rw [List.cons_append, ← hl], h1, h2id, ?_⟩
      simp [findOneAndUpdateRead, hcond, hrec]

/-- C5: marking a notification as read updates exactly the owned notification
matching the id, changing only its read-status field, and answers 200 with the
updated document; when no notification matches both the id and the caller the
handler answers 404 and produces no store change. -/
theorem markNotificationAsRead_ownership (st : Store) (uid nid : String) :
    ((∀ n ∈ st.notifications, ¬(n.notificationId = nid ∧ n.userId = uid)) →
      markNotificationAsRead st uid nid =
        Except.error (Err.apiError 404 "Notification not found or user not authorized."))
    ∧ ((∃ n ∈ st.notifications, n.notificationId = nid ∧ n.userId = uid) →
      ∃ pre n0 post,
        st.notifications = pre ++ n0 :: post ∧
        n0.notificationId = nid ∧ n0.userId = uid ∧
        markNotificationAsRead st uid nid =
          Except.ok
            ({ statusCode := 200
               data := { n0 with status := "read" }
               message := "Notification marked as read." },
              { st with notifications := pre ++ { n0 with status := "read" } :: post })) := by
  constructor
  · intro h
    unfold markNotificationAsRead
    rw [findOneAndUpdateRead_eq_none st.notifications nid uid h]
  · intro h
    obtain ⟨pre, n0, post, hl, h1, h2, hrec⟩ := findOneAndUpdateRead_of_mem _ _ _ h
    refine ⟨pre, n0, post, hl, h1, h2, ?_⟩
    unfold markNotificationAsRead
    rw [hrec]

/-- Witness for C5: over the two-notification store, marking an absent id answers
404 while marking the owned sample notification updates exactly it. -/
theorem markNotificationAsRead_ownership_witness :
    (markNotificationAsRead emptyStore "u-1" "n-1" =
      Except.error (Err.apiError 404 "Notification not found or user not authorized."))
    ∧ (∃ pre n0 post,
        storeNotifs.notifications = pre ++ n0 :: post ∧
        n0.notificationId = "n-1" ∧ n0.userId = "u-1" ∧
        markNotificationAsRead storeNotifs "u-1" "n-1" =
          Except.ok
            ({ statusCode := 200
               data := { n0 with status := "read" }
               message := "Notification marked as read." },
              { storeNotifs with notifications := pre ++ { n0 with status := "read" } :: post })) :=
  ⟨(markNotificationAsRead_ownership emptyStore "u-1" "n-1").1 (by simp [emptyStore]),
    (markNotificationAsRead_ownership storeNotifs "u-1" "n-1").2
      ⟨notif1, by decide, by decide⟩⟩

/-- A hit in the JavaScript Map comes from one of its pairs. -/
theorem jsMapGet_mem {pairs : List (String × β)} {k : String} {v : β}
    (h : jsMapGet pairs k = some v) : (k, v) ∈ pairs := by
  unfold jsMapGet at h
  cases hf : pairs.reverse.find? (fun p => p.1 == k) with
  | none =>
    rw [hf] at h
    simp at h
  | some q =>
    rw [hf] at h
    simp only [Option.map_some'] at h
    have hv2 : q.2 = v := Option.some.inj h
    have hk : q.1 = k := by simpa using List.find?_some hf
    have hqm : q ∈ pairs.reverse := List.mem_of_find?_eq_some hf
    have hq : (k, v) = q := by
      rw [← hk, ← hv2]
    rw [hq]
    exact List.mem_reverse.mp hqm

/-- A miss in the JavaScript Map means no pair carries the key. -/
theorem jsMapGet_eq_none {pairs : List (String × β)} {k : String}
    (h : ∀ p ∈ pairs, p.1 ≠ k) : jsMapGet pairs k = none := by
  have hf : pairs.reverse.find? (fun p => p.1 == k) = none :=
    List.find?_eq_none.mpr (fun p hp => by simpa using h p (List.mem_reverse.mp hp))
  simp [jsMapGet, hf]

/-- A key carried by some pair is found by the JavaScript Map. -/
theorem jsMapGet_isSome {pairs : List (String × β)} {k : String}
    (h : ∃ p ∈ pairs, p.1 = k) : ∃ v, jsMapGet pairs k = some v := by
  cases hm : jsMapGet pairs k with
  | some v => exact ⟨v, rfl⟩
  | none =>
    exfalso
    obtain ⟨p, hp, hk⟩ := h
    unfold jsMapGet at hm
    cases hf : pairs.reverse.find? (fun q => q.1 == k) with
    | some q =>
      rw [hf] at hm
      simp at hm
    | none =>
      exact List.find?_eq_none.mp hf p (List.mem_reverse.mpr hp) (by simpa using hk)

/-- C7: in the notification listing, every notification of the caller appears
populated: when its referenced report id resolves in the store the report-id
field carries the (reportId, title, status) projection of such a report, and when
it does not resolve the raw id is left in place; every other field is unchanged.
Report ids in the store are assumed nonempty (they are generated UUIDs). -/
theorem getMyNotifications_population (st : Store) (uid : String) (n : Notification)
    (hmem : n ∈ st.notifications) (hown : n.userId = uid)
    (hids : ∀ r ∈ st.reports, r.reportId ≠ "") :
    ∃ pn ∈ (getMyNotifications st uid).data,
      pn.notificationId = n.notificationId ∧ pn.message = n.message ∧
      pn.type = n.type ∧ pn.status = n.status ∧ pn.createdAt = n.createdAt ∧
      ((∃ r ∈ st.reports, n.reportId = some r.reportId) →
        ∃ r ∈ st.reports, n.reportId = some r.reportId ∧
          pn.reportId = ReportField.obj
            { reportId := r.reportId, title := r.title, status := r.status }) ∧
      ((∀ r ∈ st.reports, n.reportId ≠ some r.reportId) →
        pn.reportId = ReportField.raw n.reportId) := by
  simp only [getMyNotifications]
  set sorted := sortNewestFirst (fun x => x.createdAt)
    (st.notifications.filter (fun x => x.userId == uid)) with hsorted
  have hmem2 : n ∈ sorted := by
    rw [hsorted, mem_sortNewestFirst]
    exact List.mem_filter.mpr ⟨hmem, by simp [hown]⟩
  have hne : sorted.isEmpty = false := by
    cases hs : sorted with
    | nil =>
      rw [hs] at hmem2
      simp at hmem2
    | cons a l => rfl
  rw [hne]
  simp only [Bool.false_eq_true, if_false]
  set related := (st.reports.filter
      (fun r => (truthyReportIds sorted).contains r.reportId)).map
    (fun r => ({ reportId := r.reportId, title := r.title, status := r.status } : ReportProj))
    with hrelated
  set pairs := related.map (fun r => (r.reportId, r)) with hpairs
  refine ⟨popNotif pairs n, List.mem_map_of_mem _ hmem2, rfl, rfl, rfl, rfl, rfl, ?_, ?_⟩
  · intro hres
    obtain ⟨r, hr, hrid⟩ := hres
    have hne2 : r.reportId ≠ "" := hids r hr
    have hin : r.reportId ∈ truthyReportIds sorted := by
      unfold truthyReportIds
      rw [List.mem_dedup, List.mem_filter]
      refine ⟨List.mem_filterMap.mpr ⟨n, hmem2, ?_⟩, by simpa using hne2⟩
      rw [hrid]
    have hfil : r ∈ st.reports.filter
        (fun x => (truthyReportIds sorted).contains x.reportId) := by
      refine List.mem_filter.mpr ⟨hr, ?_⟩
      simpa [List.contains] using List.elem_iff.mpr hin
    have hrelmem :
        ({ reportId := r.reportId, title := r.title, status := r.status } : ReportProj) ∈ related := by
      rw [hrelated]
      exact List.mem_map_of_mem _ hfil
    have hpairmem : ((r.reportId : String),
        ({ reportId := r.reportId, title := r.title, status := r.status } : ReportProj)) ∈ pairs := by
      rw [hpairs]
      exact List.mem_map_of_mem (fun q : ReportProj => (q.reportId, q)) hrelmem
    have hex : ∃ p ∈ pairs, p.1 = r.reportId :=
      ⟨(r.reportId, { reportId := r.reportId, title := r.title, status := r.status }), hpairmem, rfl⟩
    obtain ⟨v, hv⟩ := jsMapGet_isSome hex
    have hvp := jsMapGet_mem hv
    rw [hpairs] at hvp
    obtain ⟨rp, hrp, heqp⟩ := List.mem_map.mp hvp
    have hrpid : rp.reportId = r.reportId := congrArg Prod.fst heqp
    have hrpv : rp = v := congrArg Prod.snd heqp
    rw [hrelated] at hrp
    obtain ⟨r0, hr0, hproj⟩ := List.mem_map.mp hrp
    have hr0mem : r0 ∈ st.reports := (List.mem_filter.mp hr0).1
    have hr0id : r0.reportId = r.reportId := by
      rw [← hrpid, ← hproj]
    refine ⟨r0, hr0mem, by rw [hrid, hr0id], ?_⟩
    have hvproj :
        v = ({ reportId := r0.reportId, title := r0.title, status := r0.status } : ReportProj) := by
      rw [← hrpv, ← hproj]
    simp [popNotif, hrid, hv, hvproj]
  · intro hnone
    cases hrid : n.reportId with
    | none => simp [popNotif, hrid]
    | some s =>
      have hnomatch : jsMapGet pairs s = none := by
        refine jsMapGet_eq_none ?_
        intro q hq
        rw [hpairs] at hq
        obtain ⟨rp, hrp, rfl⟩ := List.mem_map.mp hq
        rw [hrelated] at hrp
        obtain ⟨r0, hr0, rfl⟩ := List.mem_map.mp hrp
        intro hcontra
        exact hnone r0 (List.mem_filter.mp hr0).1 (by rw [hrid, ← hcontra])
      simp [popNotif, hrid, hnomatch]

/-- Witness for C7: in the two-notification store the resolvable reference of the
sample notification is populated with the report projection (and the dangling one
would stay raw). -/
theorem getMyNotifications_population_witness :
    notif1 ∈ storeNotifs.notifications ∧ notif1.userId = "u-1" ∧
    (∀ r ∈ storeNotifs.reports, r.reportId ≠ "") ∧
    (∃ pn ∈ (getMyNotifications storeNotifs "u-1").data,
      pn.notificationId = notif1.notificationId ∧ pn.message = notif1.message ∧
      pn.type = notif1.type ∧ pn.status = notif1.status ∧ pn.createdAt = notif1.createdAt ∧
      ((∃ r ∈ storeNotifs.reports, notif1.reportId = some r.reportId) →
        ∃ r ∈ storeNotifs.reports, notif1.reportId = some r.reportId ∧
          pn.reportId = ReportField.obj
            { reportId := r.reportId, title := r.title, status := r.status }) ∧
      ((∀ r ∈ storeNotifs.reports, notif1.reportId ≠ some r.reportId) →
        pn.reportId = ReportField.raw notif1.reportId)) :=
  ⟨by decide, by decide, by decide,
    getMyNotifications_population storeNotifs "u-1" notif1 (by decide) (by decide) (by decide)⟩

end CivicSamadhan
